import Mathlib

/-!
Verification of the email-agent repository (Gmail triage → Ollama chat →
Discord webhook).  Each Python function relevant to the claims is embedded
as an executable Lean definition that mirrors the source line by line:

* `GmailQueryBuilder` (src/src/email_agent/clients/gmail_client.py):
  token-list builder; exceptions are modelled with `Except`.
* `GmailMessage` MIME text extraction, base64url decoding, `received_at`.
* `GmailReader.get_messages`: network effects are modelled as an explicit
  trace of `NetCall`s produced alongside the result.
* `OllamaClient.chat` (ollama_client.py): the HTTP collaborator is an
  oracle `Nat → ChatOutcome` giving the outcome of each attempt.
* `discord.py`: `send_webhook` / `send_webhook_chunked` payload assembly.
* `EmailAgent.parse_tool_args` / `check_email` tool-call loop
  (src/src/email_agent/service.py and src/agent.py, identical logic).

Modelling conventions: Python `str` is Lean `String` (whitespace handling
is ASCII, matching the data in all claims); Python exceptions are `Except`
values; Python `dict` is an insertion-ordered association list with
overwrite-on-assign (`dictUpsert`); timestamps are `Int` time units;
`json.loads` is a concrete recursive-descent parser of the JSON grammar
(numbers are exact rationals; the float subtleties of Python are not
exercised by any claim).
-/

/-- Python `str.isspace()` for one character (ASCII whitespace model; the
unicode cases are not exercised by any claim). -/
def pyIsSpace (c : Char) : Bool :=
  c = ' ' || c = '\t' || c = '\n' || c = '\r' || c = '\x0b' || c = '\x0c'

/-- Python `str.strip()`: drop leading and trailing whitespace. -/
def pyStrip (s : String) : String :=
  String.mk ((((s.toList.dropWhile pyIsSpace).reverse).dropWhile pyIsSpace).reverse)

/-- Python `int(s)` for a decimal string: optional sign after stripping
whitespace, then one or more digits.  Returns `none` where Python raises
`ValueError` (underscore separators are not modelled; no claim uses them). -/
def pyInt (s : String) : Option Int :=
  let t := pyStrip s
  let digitsVal (ds : List Char) : Option Int :=
    if ds = [] ∨ ¬ ds.all Char.isDigit then none
    else some (ds.foldl (fun acc c => acc * 10 + (c.toNat - 48)) (0 : Int))
  match t.toList with
  | '-' :: ds => (digitsVal ds).map (fun n => -n)
  | '+' :: ds => digitsVal ds
  | ds => digitsVal ds

/-- Python `dict` assignment `d[k] = v` over an insertion-ordered
association list: overwrite in place if the key exists, else append. -/
def dictUpsert {α : Type} (k : String) (v : α) :
    List (String × α) → List (String × α)
  | [] => [(k, v)]
  | (k', v') :: rest =>
      if k' = k then (k', v) :: rest else (k', v') :: dictUpsert k v rest

/-- Python `d.get(k)` over the association-list dictionary model. -/
def dictGet {α : Type} (k : String) : List (String × α) → Option α
  | [] => none
  | (k', v) :: rest => if k' = k then some v else dictGet k rest

/-- Value held by the LAST pair with key `k` in a list of pairs
(the value a Python dict built by successive assignments would hold). -/
def lastVal {α : Type} (k : String) : List (String × α) → Option α
  | [] => none
  | (k', v) :: rest =>
      match lastVal k rest with
      | some w => some w
      | none => if k' = k then some v else none

theorem dictGet_upsert {α : Type} (k k' : String) (v : α)
    (d : List (String × α)) :
    dictGet k (dictUpsert k' v d) =
      if k' = k then some v else dictGet k d := by
  induction d with
  | nil => by_cases h : k' = k <;> simp [dictUpsert, dictGet, h]
  | cons p rest ih =>
    obtain ⟨k₀, v₀⟩ := p
    by_cases h0 : k₀ = k'
    · subst h0
      by_cases h1 : k₀ = k <;> simp [dictUpsert, dictGet, h1]
    · by_cases h1 : k₀ = k
      · subst h1
        simp [dictUpsert, dictGet, h0, Ne.symm h0]
      · simp [dictUpsert, dictGet, h0, h1, ih]

/-- Folding Python dict assignments over a list of pairs. -/
def applyUpserts {α : Type} (d : List (String × α))
    (l : List (String × α)) : List (String × α) :=
  l.foldl (fun acc kv => dictUpsert kv.1 kv.2 acc) d

theorem dictGet_applyUpserts {α : Type} (k : String)
    (l d : List (String × α)) :
    dictGet k (applyUpserts d l) =
      match lastVal k l with
      | some w => some w
      | none => dictGet k d := by
  induction l generalizing d with
  | nil => simp [applyUpserts, lastVal]
  | cons p rest ih =>
    obtain ⟨k₀, v₀⟩ := p
    have step : applyUpserts d ((k₀, v₀) :: rest) =
        applyUpserts (dictUpsert k₀ v₀ d) rest := rfl
    rw [step, ih]
    cases hrest : lastVal k rest with
    | some w => simp [lastVal, hrest]
    | none =>
      by_cases h : k₀ = k <;>
        simp [lastVal, hrest, dictGet_upsert, h]

/-! ## Gmail query builder (gmail_client.py, class `GmailQueryBuilder`)

The builder state is its token list `_tokens : list[str]`.  Each
value-accepting method is a function from the value and the current token
list to `Except QueryError (List String)`: a `ValueError` raised inside
the method is an `.error` result, in which case the Python token list is
untouched (the `raise` in `_quote` happens before `_add`). -/

inductive QueryError where
  | emptyValue
  | anyOfEmpty
  deriving DecidableEq, Repr

namespace GmailQueryBuilder

/-- `_quote`: strip, reject empty, wrap in quotes (escaping `"`)
when the text has whitespace or a double quote. -/
def _quote (value : String) : Except QueryError String :=
  let text := pyStrip value
  if text = "" then .error .emptyValue
  else if text.toList.any pyIsSpace ∨ text.contains '"' then
    .ok ("\"" ++ text.replace "\"" "\\\"" ++ "\"")
  else .ok text

/-- `text(value)`: `_add(_quote(value))`. -/
def text (value : String) (tokens : List String) :
    Except QueryError (List String) :=
  (_quote value).map (fun q => tokens ++ [q])

/-- `phrase(value)`: always quotes, no blank check in the source. -/
def phrase (value : String) (tokens : List String) :
    Except QueryError (List String) :=
  .ok (tokens ++ ["\"" ++ (pyStrip value).replace "\"" "\\\"" ++ "\""])

/-- Shared shape of the `prefix:`-style methods built on `_quote`. -/
def addQuoted (key : String) (value : String) (tokens : List String) :
    Except QueryError (List String) :=
  (_quote value).map (fun q => tokens ++ [key ++ q])

def from_ (v : String) (tokens : List String) := addQuoted "from:" v tokens
def to_ (v : String) (tokens : List String) := addQuoted "to:" v tokens
def cc (v : String) (tokens : List String) := addQuoted "cc:" v tokens
def bcc (v : String) (tokens : List String) := addQuoted "bcc:" v tokens
def subject (v : String) (tokens : List String) := addQuoted "subject:" v tokens
def label (v : String) (tokens : List String) := addQuoted "label:" v tokens
def in_ (v : String) (tokens : List String) := addQuoted "in:" v tokens
def has (v : String) (tokens : List String) := addQuoted "has:" v tokens
def filename (v : String) (tokens : List String) := addQuoted "filename:" v tokens
def is_ (v : String) (tokens : List String) := addQuoted "is:" v tokens
def category (v : String) (tokens : List String) := addQuoted "category:" v tokens
def older_than (v : String) (tokens : List String) := addQuoted "older_than:" v tokens
def newer_than (v : String) (tokens : List String) := addQuoted "newer_than:" v tokens
def older (v : String) (tokens : List String) := addQuoted "older:" v tokens
def newer (v : String) (tokens : List String) := addQuoted "newer:" v tokens
def larger (v : String) (tokens : List String) := addQuoted "larger:" v tokens
def smaller (v : String) (tokens : List String) := addQuoted "smaller:" v tokens
def deliveredto (v : String) (tokens : List String) := addQuoted "deliveredto:" v tokens
def list_ (v : String) (tokens : List String) := addQuoted "list:" v tokens

/-- `_date_value`: format a date token (string case: strip and map `-`→`/`). -/
def _date_value (value : String) : String :=
  (pyStrip value).replace "-" "/"

/-- `before(value)` (string-valued case): no blank check in the source. -/
def before (v : String) (tokens : List String) :
    Except QueryError (List String) :=
  .ok (tokens ++ ["before:" ++ _date_value v])

/-- `after(value)` (string-valued case). -/
def after (v : String) (tokens : List String) :
    Except QueryError (List String) :=
  .ok (tokens ++ ["after:" ++ _date_value v])

/-- `include(raw_expression)`: `_add(str(raw_expression).strip())` —
note: NO emptiness check in the source. -/
def include_ (raw_expression : String) (tokens : List String) :
    Except QueryError (List String) :=
  .ok (tokens ++ [pyStrip raw_expression])

/-- Python `expr.startswith("-")` (single-character pattern). -/
def startsWithDash (s : String) : Bool :=
  match s.toList with
  | '-' :: _ => true
  | _ => false

/-- `exclude(raw_expression)`: strip, reject empty, prepend `-` unless the
stripped expression already starts with `-`. -/
def exclude (raw_expression : String) (tokens : List String) :
    Except QueryError (List String) :=
  let expr := pyStrip raw_expression
  if expr = "" then .error .emptyValue
  else .ok (tokens ++ [if startsWithDash expr then expr else "-" ++ expr])

/-- `any_of(*expressions)`: keep the non-blank stripped operands, reject
if none remain, else append a parenthesized OR-group. -/
def any_of (expressions : List String) (tokens : List String) :
    Except QueryError (List String) :=
  let values := (expressions.map pyStrip).filter (fun x => x ≠ "")
  if values = [] then .error .anyOfEmpty
  else .ok (tokens ++ ["(" ++ String.intercalate " OR " values ++ ")"])

/-- `build()`: join with single spaces, trimmed. -/
def build (tokens : List String) : String :=
  pyStrip (String.intercalate " " tokens)

end GmailQueryBuilder

/-- Count of leading `-` characters of a string. -/
def countLeadingDashes (s : String) : Nat :=
  (s.toList.takeWhile (fun c => c = '-')).length

/-- C7 counterexample: `include("")` appends the empty token and raises no
error, so not every value-accepting builder method rejects a blank value. -/
theorem claim_C7_counterexample :
    GmailQueryBuilder.include_ "" [] = Except.ok [""] ∧
      Except.ok [""] ≠ (Except.error QueryError.emptyValue :
        Except QueryError (List String)) ∧ ([""] : List String) ≠ [] := by
  refine ⟨rfl, by simp, by simp⟩

/-- C7 amended: every `_quote`-based value method, plus `exclude` and
`any_of`, rejects a blank value with a `ValueError` and leaves the token
list unchanged; but `include` performs no validation and appends the
stripped (empty) token. -/
theorem claim_C7_amended (s : String) (tokens : List String)
    (h : pyStrip s = "") :
    GmailQueryBuilder.text s tokens = .error .emptyValue ∧
    GmailQueryBuilder.from_ s tokens = .error .emptyValue ∧
    GmailQueryBuilder.to_ s tokens = .error .emptyValue ∧
    GmailQueryBuilder.cc s tokens = .error .emptyValue ∧
    GmailQueryBuilder.bcc s tokens = .error .emptyValue ∧
    GmailQueryBuilder.subject s tokens = .error .emptyValue ∧
    GmailQueryBuilder.label s tokens = .error .emptyValue ∧
    GmailQueryBuilder.in_ s tokens = .error .emptyValue ∧
    GmailQueryBuilder.has s tokens = .error .emptyValue ∧
    GmailQueryBuilder.filename s tokens = .error .emptyValue ∧
    GmailQueryBuilder.is_ s tokens = .error .emptyValue ∧
    GmailQueryBuilder.category s tokens = .error .emptyValue ∧
    GmailQueryBuilder.older_than s tokens = .error .emptyValue ∧
    GmailQueryBuilder.newer_than s tokens = .error .emptyValue ∧
    GmailQueryBuilder.older s tokens = .error .emptyValue ∧
    GmailQueryBuilder.newer s tokens = .error .emptyValue ∧
    GmailQueryBuilder.larger s tokens = .error .emptyValue ∧
    GmailQueryBuilder.smaller s tokens = .error .emptyValue ∧
    GmailQueryBuilder.deliveredto s tokens = .error .emptyValue ∧
    GmailQueryBuilder.list_ s tokens = .error .emptyValue ∧
    GmailQueryBuilder.exclude s tokens = .error .emptyValue ∧
    GmailQueryBuilder.any_of [s] tokens = .error .anyOfEmpty ∧
    GmailQueryBuilder.include_ s tokens = .ok (tokens ++ [""]) := by
  simp [GmailQueryBuilder.text, GmailQueryBuilder.from_,
    GmailQueryBuilder.to_, GmailQueryBuilder.cc, GmailQueryBuilder.bcc,
    GmailQueryBuilder.subject, GmailQueryBuilder.label,
    GmailQueryBuilder.in_, GmailQueryBuilder.has,
    GmailQueryBuilder.filename, GmailQueryBuilder.is_,
    GmailQueryBuilder.category, GmailQueryBuilder.older_than,
    GmailQueryBuilder.newer_than, GmailQueryBuilder.older,
    GmailQueryBuilder.newer, GmailQueryBuilder.larger,
    GmailQueryBuilder.smaller, GmailQueryBuilder.deliveredto,
    GmailQueryBuilder.list_, GmailQueryBuilder.exclude,
    GmailQueryBuilder.any_of, GmailQueryBuilder.include_,
    GmailQueryBuilder.addQuoted, GmailQueryBuilder._quote, Except.map, h]

/-- Closed instance of C7: the blank value `"  "` is rejected by the
quote-based methods and `exclude`/`any_of`, while `include` appends `""`. -/
theorem claim_C7_amended_witness :
    pyStrip "  " = "" ∧
    (GmailQueryBuilder.text "  " ["a"] = .error .emptyValue ∧
     GmailQueryBuilder.from_ "  " ["a"] = .error .emptyValue ∧
     GmailQueryBuilder.to_ "  " ["a"] = .error .emptyValue ∧
     GmailQueryBuilder.cc "  " ["a"] = .error .emptyValue ∧
     GmailQueryBuilder.bcc "  " ["a"] = .error .emptyValue ∧
     GmailQueryBuilder.subject "  " ["a"] = .error .emptyValue ∧
     GmailQueryBuilder.label "  " ["a"] = .error .emptyValue ∧
     GmailQueryBuilder.in_ "  " ["a"] = .error .emptyValue ∧
     GmailQueryBuilder.has "  " ["a"] = .error .emptyValue ∧
     GmailQueryBuilder.filename "  " ["a"] = .error .emptyValue ∧
     GmailQueryBuilder.is_ "  " ["a"] = .error .emptyValue ∧
     GmailQueryBuilder.category "  " ["a"] = .error .emptyValue ∧
     GmailQueryBuilder.older_than "  " ["a"] = .error .emptyValue ∧
     GmailQueryBuilder.newer_than "  " ["a"] = .error .emptyValue ∧
     GmailQueryBuilder.older "  " ["a"] = .error .emptyValue ∧
     GmailQueryBuilder.newer "  " ["a"] = .error .emptyValue ∧
     GmailQueryBuilder.larger "  " ["a"] = .error .emptyValue ∧
     GmailQueryBuilder.smaller "  " ["a"] = .error .emptyValue ∧
     GmailQueryBuilder.deliveredto "  " ["a"] = .error .emptyValue ∧
     GmailQueryBuilder.list_ "  " ["a"] = .error .emptyValue ∧
     GmailQueryBuilder.exclude "  " ["a"] = .error .emptyValue ∧
     GmailQueryBuilder.any_of ["  "] ["a"] = .error .anyOfEmpty ∧
     GmailQueryBuilder.include_ "  " ["a"] = .ok (["a"] ++ [""])) :=
  ⟨rfl, claim_C7_amended "  " ["a"] rfl⟩

/-- C8 counterexample: `exclude("--a")` appends `"--a"` unchanged, a token
carrying TWO leading negation markers. -/
theorem claim_C8_counterexample :
    GmailQueryBuilder.exclude "--a" [] = Except.ok ["--a"] ∧
      countLeadingDashes "--a" = 2 ∧ ¬ countLeadingDashes "--a" ≤ 1 :=
  ⟨rfl, rfl, by decide⟩

theorem startsWithDash_dash_append (t : String) :
    GmailQueryBuilder.startsWithDash ("-" ++ t) = true := by
  simp [GmailQueryBuilder.startsWithDash, String.toList, String.data_append]

theorem countLeadingDashes_dash_append (t : String)
    (h : GmailQueryBuilder.startsWithDash t = false) :
    countLeadingDashes ("-" ++ t) = 1 := by
  have hdata : t.data.takeWhile (fun c => decide (c = '-')) = [] := by
    cases ht : t.data with
    | nil => simp
    | cons c cs =>
      have hc : c ≠ '-' := by
        intro hc
        subst hc
        simp [GmailQueryBuilder.startsWithDash, String.toList, ht] at h
      simp [List.takeWhile_cons, hc]
  simp [countLeadingDashes, String.toList, String.data_append,
    List.takeWhile_cons, hdata]

/-- C8 amended: `exclude` guarantees at least one leading negation marker,
adding exactly one when the stripped expression lacks one; an expression
already starting with `-` is appended unchanged, so any extra leading
markers it carries are preserved (the appended token may carry more than
one). -/
theorem claim_C8_amended (raw : String) (tokens : List String)
    (h : pyStrip raw ≠ "") :
    ∃ tok,
      GmailQueryBuilder.exclude raw tokens = .ok (tokens ++ [tok]) ∧
      tok = (if GmailQueryBuilder.startsWithDash (pyStrip raw)
             then pyStrip raw else "-" ++ pyStrip raw) ∧
      GmailQueryBuilder.startsWithDash tok = true ∧
      (GmailQueryBuilder.startsWithDash (pyStrip raw) = false →
        countLeadingDashes tok = 1) ∧
      (GmailQueryBuilder.startsWithDash (pyStrip raw) = true →
        tok = pyStrip raw) := by
  refine ⟨_, ?_, rfl, ?_, ?_, ?_⟩
  · simp [GmailQueryBuilder.exclude, h]
  · cases hd : GmailQueryBuilder.startsWithDash (pyStrip raw) with
    | true => simp [hd]
    | false => simp [hd, startsWithDash_dash_append]
  · intro hd
    simp [hd, countLeadingDashes_dash_append _ hd]
  · intro hd
    simp [hd]

/-- Closed instance of C8 amended at `raw = " x "`. -/
theorem claim_C8_amended_witness :
    pyStrip " x " ≠ "" ∧
    (∃ tok,
      GmailQueryBuilder.exclude " x " [] = .ok ([] ++ [tok]) ∧
      tok = (if GmailQueryBuilder.startsWithDash (pyStrip " x ")
             then pyStrip " x " else "-" ++ pyStrip " x ") ∧
      GmailQueryBuilder.startsWithDash tok = true ∧
      (GmailQueryBuilder.startsWithDash (pyStrip " x ") = false →
        countLeadingDashes tok = 1) ∧
      (GmailQueryBuilder.startsWithDash (pyStrip " x ") = true →
        tok = pyStrip " x ")) :=
  ⟨by decide, claim_C8_amended " x " [] (by decide)⟩

/-! ## Gmail message MIME text extraction (gmail_client.py, `GmailMessage`)

`_extract_text_parts` walks the MIME part tree depth first and assigns
`found[mime_type] = decoded` for every text part carrying body data; the
memoization cache of the source is invisible here since the function is
pure.  `_decode_base64url` is embedded concretely: padding restoration,
URL-safe base64 alphabet (characters outside the alphabet are discarded,
as `b64decode` does with `validate=False`), and UTF-8 decoding with
replacement characters.  On malformed base64 the source can raise
`binascii.Error` where this model is total; no claim exercises that. -/

/-- Python `str.lower()` (ASCII model). -/
def pyCharLower (c : Char) : Char :=
  if 'A' ≤ c && c ≤ 'Z' then Char.ofNat (c.toNat + 32) else c

/-- Python `str.lower()` over a string (ASCII model). -/
def pyLower (s : String) : String := String.mk (s.toList.map pyCharLower)

/-- Python `s.startswith(pat)`. -/
def pyStartsWith (s pat : String) : Bool :=
  s.toList.take pat.toList.length == pat.toList

/-- Value of one URL-safe base64 alphabet character. -/
def b64CharVal (c : Char) : Option Nat :=
  if 'A' ≤ c && c ≤ 'Z' then some (c.toNat - 65)
  else if 'a' ≤ c && c ≤ 'z' then some (c.toNat - 97 + 26)
  else if '0' ≤ c && c ≤ '9' then some (c.toNat - 48 + 52)
  else if c = '-' then some 62
  else if c = '_' then some 63
  else none

/-- Reassemble 6-bit groups into bytes (4 sextets → 3 bytes; a final group
of 2 or 3 sextets → 1 or 2 bytes, as in base64 without padding). -/
def sextetsToBytes : List Nat → List Nat
  | a :: b :: c :: d :: rest =>
      (a * 4 + b / 16) :: ((b % 16) * 16 + c / 4) :: ((c % 4) * 64 + d) ::
        sextetsToBytes rest
  | [a, b] => [a * 4 + b / 16]
  | [a, b, c] => [a * 4 + b / 16, (b % 16) * 16 + c / 4]
  | _ => []

/-- Is `b` a UTF-8 continuation byte? -/
def utf8Cont (b : Nat) : Bool := 0x80 ≤ b && b < 0xC0

/-- UTF-8 decoding with fuel (one unit per decoded character; each step
consumes at least one byte, so `length` fuel suffices).  Malformed
sequences give U+FFFD (the exact replacement granularity of Python
`errors="replace"` is approximated; all claim data is well-formed ASCII). -/
def utf8DecodeAux : Nat → List Nat → List Char
  | 0, _ => []
  | fuel + 1, l =>
    match l with
    | [] => []
    | b :: rest =>
      if b < 0x80 then Char.ofNat b :: utf8DecodeAux fuel rest
      else if 0xC2 ≤ b && b ≤ 0xDF then
        match rest with
        | c1 :: r =>
          if utf8Cont c1 then
            Char.ofNat ((b - 0xC0) * 64 + (c1 - 0x80)) :: utf8DecodeAux fuel r
          else '�' :: utf8DecodeAux fuel (c1 :: r)
        | [] => ['�']
      else if 0xE0 ≤ b && b ≤ 0xEF then
        match rest with
        | c1 :: c2 :: r =>
          let cp := (b - 0xE0) * 4096 + (c1 - 0x80) * 64 + (c2 - 0x80)
          if utf8Cont c1 && utf8Cont c2 && 0x800 ≤ cp &&
              ¬ (0xD800 ≤ cp && cp ≤ 0xDFFF) then
            Char.ofNat cp :: utf8DecodeAux fuel r
          else '�' :: utf8DecodeAux fuel rest
        | short => '�' :: utf8DecodeAux fuel short
      else if 0xF0 ≤ b && b ≤ 0xF4 then
        match rest with
        | c1 :: c2 :: c3 :: r =>
          let cp := (b - 0xF0) * 262144 + (c1 - 0x80) * 4096 +
            (c2 - 0x80) * 64 + (c3 - 0x80)
          if utf8Cont c1 && utf8Cont c2 && utf8Cont c3 &&
              0x10000 ≤ cp && cp ≤ 0x10FFFF then
            Char.ofNat cp :: utf8DecodeAux fuel r
          else '�' :: utf8DecodeAux fuel rest
        | short => '�' :: utf8DecodeAux fuel short
      else '�' :: utf8DecodeAux fuel rest

/-- UTF-8 decoding of a byte list. -/
def utf8Decode (l : List Nat) : List Char := utf8DecodeAux l.length l

/-- `GmailMessage._decode_base64url`: restore padding, decode URL-safe
base64, decode the bytes as UTF-8 with replacement. -/
def _decode_base64url (data : String) : String :=
  if data = "" then ""
  else
    let padded :=
      data ++ String.mk (List.replicate ((4 - data.length % 4) % 4) '=')
    String.mk (utf8Decode (sextetsToBytes (padded.toList.filterMap b64CharVal)))

/-- A node of the Gmail `payload` MIME part tree: `mimeType`,
`body.data` (absent or a base64url string) and child `parts`. -/
inductive MimePart where
  | mk (mimeType : String) (bodyData : Option String) (parts : List MimePart)

mutual

/-- The `walk(part)` closure of `_extract_text_parts`: record
`found[mime_type] = decoded` for a text part with data, then recurse into
the children, depth first. -/
def walkPart : MimePart → List (String × String) → List (String × String)
  | .mk mimeType bodyData parts, found =>
    let mtl := pyLower mimeType
    let found1 :=
      match bodyData with
      | some d =>
          if d ≠ "" && pyStartsWith mtl "text/" then
            dictUpsert mtl (_decode_base64url d) found
          else found
      | none => found
    walkParts parts found1

/-- `walk` over a list of child parts, left to right. -/
def walkParts : List MimePart → List (String × String) → List (String × String)
  | [], found => found
  | p :: rest, found => walkParts rest (walkPart p found)

end

mutual

/-- Specification view: the `(mime_type, decoded_data)` pairs of the text
parts of the tree, in depth-first pre-order (the order `walk` visits). -/
def textPartsOf : MimePart → List (String × String)
  | .mk mimeType bodyData parts =>
    (match bodyData with
     | some d =>
         if d ≠ "" && pyStartsWith (pyLower mimeType) "text/" then
           [(pyLower mimeType, _decode_base64url d)]
         else []
     | none => []) ++ textPartsOfList parts

/-- `textPartsOf` over a list of parts. -/
def textPartsOfList : List MimePart → List (String × String)
  | [] => []
  | p :: rest => textPartsOf p ++ textPartsOfList rest

end

/-- `GmailMessage._extract_text_parts` on the message payload. -/
def _extract_text_parts (payload : MimePart) : List (String × String) :=
  walkPart payload []

/-- `GmailMessage.plain_body`: `text_parts.get("text/plain", "")`. -/
def plain_body (payload : MimePart) : String :=
  (dictGet "text/plain" (_extract_text_parts payload)).getD ""

/-- `GmailMessage.html_body`: `text_parts.get("text/html", "")`. -/
def html_body (payload : MimePart) : String :=
  (dictGet "text/html" (_extract_text_parts payload)).getD ""

mutual

/-- `walk` is the fold of Python dict assignments over the depth-first
list of text parts. -/
theorem walkPart_eq (p : MimePart) (found : List (String × String)) :
    walkPart p found = applyUpserts found (textPartsOf p) := by
  cases p with
  | mk mimeType bodyData parts =>
    cases bodyData with
    | none =>
      have h1 : walkPart (.mk mimeType none parts) found =
          walkParts parts found := rfl
      have h2 : textPartsOf (.mk mimeType none parts) =
          textPartsOfList parts := rfl
      rw [h1, h2, walkParts_eq parts found]
    | some d =>
      have h1 : walkPart (.mk mimeType (some d) parts) found =
          walkParts parts
            (if d ≠ "" && pyStartsWith (pyLower mimeType) "text/" then
              dictUpsert (pyLower mimeType) (_decode_base64url d) found
             else found) := rfl
      have h2 : textPartsOf (.mk mimeType (some d) parts) =
          (if d ≠ "" && pyStartsWith (pyLower mimeType) "text/" then
            [(pyLower mimeType, _decode_base64url d)]
           else []) ++ textPartsOfList parts := rfl
      rw [h1, h2]
      by_cases hc : (d ≠ "" && pyStartsWith (pyLower mimeType) "text/") = true
      · rw [if_pos hc, if_pos hc, walkParts_eq parts]
        simp [applyUpserts]
      · rw [if_neg hc, if_neg hc, walkParts_eq parts]
        simp [applyUpserts]

/-- `walk` over children is the fold over their concatenated text parts. -/
theorem walkParts_eq (ps : List MimePart) (found : List (String × String)) :
    walkParts ps found = applyUpserts found (textPartsOfList ps) := by
  cases ps with
  | nil => rfl
  | cons p rest =>
    have h1 : walkParts (p :: rest) found =
        walkParts rest (walkPart p found) := rfl
    have h2 : textPartsOfList (p :: rest) =
        textPartsOf p ++ textPartsOfList rest := rfl
    rw [h1, h2, walkPart_eq p found, walkParts_eq rest]
    simp [applyUpserts, List.foldl_append]

end

/-- C1 amended: the single depth-first traversal collects, for each text
MIME type, the LAST matching part in traversal order (Python dict
assignment overwrites), so `plain_body()`/`html_body()` return the decoded
content of the last matching part, not the first. -/
theorem claim_C1_amended (payload : MimePart) :
    (∀ k, dictGet k (_extract_text_parts payload) =
      lastVal k (textPartsOf payload)) ∧
    plain_body payload = (lastVal "text/plain" (textPartsOf payload)).getD "" ∧
    html_body payload = (lastVal "text/html" (textPartsOf payload)).getD "" := by
  have key : ∀ k, dictGet k (_extract_text_parts payload) =
      lastVal k (textPartsOf payload) := by
    intro k
    rw [_extract_text_parts, walkPart_eq, dictGet_applyUpserts]
    cases lastVal k (textPartsOf payload) <;> simp [dictGet]
  exact ⟨key, by rw [plain_body, key], by rw [html_body, key]⟩

/-- A payload with two `text/plain` parts: the first decodes to `"A"`,
the second to `"B"`. -/
def c1Tree : MimePart :=
  .mk "multipart/alternative" none
    [.mk "text/plain" (some "QQ") [], .mk "text/plain" (some "Qg") []]

/-- C1 counterexample: with two `text/plain` parts (decoding to `"A"` then
`"B"` in traversal order), `plain_body()` returns the LAST occurrence
`"B"`, not the first occurrence `"A"` the claim promises. -/
theorem claim_C1_counterexample :
    _decode_base64url "QQ" = "A" ∧ _decode_base64url "Qg" = "B" ∧
    plain_body c1Tree = "B" ∧ plain_body c1Tree ≠ "A" :=
  ⟨rfl, rfl, rfl, by decide⟩

/-! ## Gmail reader (gmail_client.py, `GmailReader` and `received_at`)

The Gmail API collaborators are modelled by an environment: the listing
result (`refs`), the per-id message resource (`lookup`), the clock (`now`)
and the external RFC-2822 date parser of `email.utils`
(`parseDate`, an abstract stdlib function returning `none` where
`parsedate_to_datetime` fails or yields nothing).  Timestamps are `Int`
time units; `datetime.fromtimestamp(int(internal_date)/1000)` is
order-isomorphic to the integer value itself, which is what the filter
compares.  `get_messages` returns the trace of network calls it makes
alongside its result, so "no fetch occurs" is a statement about the
trace. -/

/-- One raw header item of a message payload (`name` defaulting to `""`
when absent, as `str(item.get("name", ""))` does). -/
structure HeaderItem where
  name : String
  value : Option String

/-- `GmailMessage.header(name, default)`: case-insensitive first match. -/
def headerLookup (headers : List HeaderItem) (name : String)
    (default : Option String) : Option String :=
  let target := pyLower (pyStrip name)
  if target = "" then default
  else
    match headers.find? (fun item => pyLower item.name == target) with
    | some item =>
        match item.value with
        | some v => some v
        | none => default
    | none => default

/-- The fields of a Gmail message resource used by `received_at`. -/
structure GmailMsgData where
  internalDate : Option String
  headers : List HeaderItem

/-- `GmailMessage.received_at`: millisecond-epoch field first (skipped when
falsy or unparseable), else the `Date` header through the stdlib parser,
else `None`. -/
def received_at (parseDate : String → Option Int) (m : GmailMsgData) :
    Option Int :=
  let viaInternal :=
    match m.internalDate with
    | some s => if s = "" then none else pyInt s
    | none => none
  match viaInternal with
  | some t => some t
  | none =>
    match headerLookup m.headers "Date" none with
    | some dh => if dh = "" then none else parseDate dh
    | none => none

/-- One item of the `messages.list` response (`id` may be absent). -/
structure RefItem where
  id : Option String

/-- A network call made by `GmailReader`. -/
inductive NetCall where
  | listMessages (q : String) (labelIds : List String) (maxResults : Nat)
  | getMessage (id : String)
  deriving DecidableEq

inductive GmailError where
  | invalidWindow
  deriving DecidableEq

/-- The external collaborators of `GmailReader.get_messages`. -/
structure FetchEnv where
  refs : List RefItem
  lookup : String → GmailMsgData
  now : Int
  parseDate : String → Option Int

/-- The truthy ids of the listing result (`if message_id:`). -/
def fetchedIds (refs : List RefItem) : List String :=
  refs.filterMap (fun r =>
    match r.id with
    | some s => if s = "" then none else some s
    | none => none)

/-- `label_ids or ["INBOX"]` (Python truthiness: `None` and `[]`). -/
def effectiveLabels (label_ids : Option (List String)) : List String :=
  match label_ids with
  | some l => if l = [] then ["INBOX"] else l
  | none => ["INBOX"]

/-- The filter of the window branch:
`received_at is not None and received_at >= cutoff`. -/
def recentPred (parseDate : String → Option Int) (cutoff : Int)
    (m : GmailMsgData) : Bool :=
  match received_at parseDate m with
  | some t => decide (cutoff ≤ t)
  | none => false

/-- `GmailReader.get_messages`: list refs, fetch each message with a
truthy id, and only then — if a window was supplied — raise on a negative
window or filter by `received_at() >= now - time_delta`.  Returns the
trace of network calls made together with the result. -/
def get_messages (env : FetchEnv) (q : String) (max_results : Nat)
    (label_ids : Option (List String)) (time_delta : Option Int) :
    List NetCall × Except GmailError (List GmailMsgData) :=
  let ids := fetchedIds env.refs
  let calls :=
    NetCall.listMessages (pyStrip q) (effectiveLabels label_ids) max_results ::
      ids.map NetCall.getMessage
  let messages := ids.map env.lookup
  match time_delta with
  | none => (calls, .ok messages)
  | some d =>
    if d < 0 then (calls, .error .invalidWindow)
    else
      (calls, .ok (messages.filter (recentPred env.parseDate (env.now - d))))

/-- Environment for the C2 counterexample: one listed message. -/
def c2Env : FetchEnv :=
  { refs := [⟨some "m1"⟩],
    lookup := fun _ => ⟨none, []⟩,
    now := 0,
    parseDate := fun _ => none }

/-- C2 counterexample: with a negative window the error is raised, but the
listing call and the per-message retrieval call HAVE been made — the trace
is not empty, refuting "before any fetch occurs". -/
theorem claim_C2_counterexample :
    get_messages c2Env "q" 25 none (some (-60)) =
      ([NetCall.listMessages "q" ["INBOX"] 25, NetCall.getMessage "m1"],
        .error .invalidWindow) ∧
    NetCall.getMessage "m1" ∈ (get_messages c2Env "q" 25 none (some (-60))).1 ∧
    (get_messages c2Env "q" 25 none (some (-60))).1 ≠ [] :=
  ⟨rfl, by decide, by decide⟩

/-- C2 amended: a negative window does raise `InvalidWindow` (a
`ValueError`), but only after the message listing and every per-message
retrieval have already been performed: the trace always contains the
listing call followed by one `getMessage` per truthy listed id. -/
theorem claim_C2_amended (env : FetchEnv) (q : String) (mr : Nat)
    (labels : Option (List String)) (d : Int) (h : d < 0) :
    get_messages env q mr labels (some d) =
      (NetCall.listMessages (pyStrip q) (effectiveLabels labels) mr ::
        (fetchedIds env.refs).map NetCall.getMessage,
       .error .invalidWindow) := by
  simp [get_messages, h]

/-- Closed instance of C2 amended at `d = -1`. -/
theorem claim_C2_amended_witness :
    (-1 : Int) < 0 ∧
    get_messages c2Env "w" 10 none (some (-1)) =
      (NetCall.listMessages (pyStrip "w") (effectiveLabels none) 10 ::
        (fetchedIds c2Env.refs).map NetCall.getMessage,
       .error .invalidWindow) :=
  ⟨by decide, claim_C2_amended c2Env "w" 10 none (-1) (by decide)⟩

/-- C9: with a non-negative window, every message in the result has a
parseable receipt timestamp and it is at least `now - window`; messages
whose `received_at()` is `None` are excluded. -/
theorem claim_C9 (env : FetchEnv) (q : String) (mr : Nat)
    (labels : Option (List String)) (d : Int) (h : 0 ≤ d) :
    ∃ l, (get_messages env q mr labels (some d)).2 = .ok l ∧
      ∀ m ∈ l, ∃ t, received_at env.parseDate m = some t ∧ env.now - d ≤ t := by
  have hneg : ¬ d < 0 := not_lt.mpr h
  refine ⟨((fetchedIds env.refs).map env.lookup).filter
    (recentPred env.parseDate (env.now - d)), ?_, ?_⟩
  · simp only [get_messages]
    rw [if_neg hneg]
  · intro m hm
    rw [List.mem_filter] at hm
    have hp := hm.2
    rw [recentPred] at hp
    cases hr : received_at env.parseDate m with
    | none => rw [hr] at hp; simp at hp
    | some t =>
      rw [hr] at hp
      exact ⟨t, rfl, by simpa using hp⟩

/-- Environment for the C9 witness: message "a" has a parseable
millisecond timestamp, message "b" has no timestamp source at all. -/
def c9Env : FetchEnv :=
  { refs := [⟨some "a"⟩, ⟨some "b"⟩],
    lookup := fun i => if i = "a" then ⟨some "100", []⟩ else ⟨none, []⟩,
    now := 120,
    parseDate := fun _ => none }

/-- Closed instance of C9 with a window of 50 time units. -/
theorem claim_C9_witness :
    (0 : Int) ≤ 50 ∧
    (∃ l, (get_messages c9Env "q" 25 none (some 50)).2 = .ok l ∧
      ∀ m ∈ l, ∃ t, received_at c9Env.parseDate m = some t ∧
        c9Env.now - 50 ≤ t) :=
  ⟨by decide, claim_C9 c9Env "q" 25 none 50 (by decide)⟩

/-! ## Ollama chat client (ollama_client.py, `OllamaClient.chat`)

The HTTP collaborator is an oracle `outcomes : Nat → ChatOutcome` giving
the outcome of the n-th `requests.post` attempt: a read timeout (the only
exception the `except ReadTimeout` clause catches), a non-timeout
transport error (connection error, connect timeout, ...), or a response
with a status code and an already-parsed JSON body.  `raise_for_status()`
raises exactly for status codes 400–599.  The payload is built once
before the loop, so every attempt carries the identical request. -/

/-- Outcome of one `requests.post` to the chat endpoint. -/
inductive ChatOutcome where
  | readTimeout
  | transportError
  | response (status : Nat) (body : List (String × String))
  deriving DecidableEq

/-- Errors `chat` can propagate. -/
inductive ChatError where
  | missingChatUrl
  | missingModel
  | timeout
  | transport
  | httpStatusError (code : Nat)
  deriving DecidableEq

/-- The request `chat` posts: endpoint, payload model and messages (the
fixed generation options of the payload are constants and omitted). -/
structure ChatRequest where
  url : String
  model : String
  messages : List (List (String × String))
  deriving DecidableEq

/-- Configuration of `OllamaClient` (constructor / environment values). -/
structure OllamaConfig where
  chat_url : Option String
  model : Option String

/-- Does `raise_for_status()` raise for this code? -/
def isHttpError (status : Nat) : Bool := 400 ≤ status && status < 600

/-- `OllamaClient.chat`: config checks before any call, then up to two
attempts where only a read timeout on the first attempt triggers the
single retry.  Returns the trace of posted requests and the result. -/
def chat (cfg : OllamaConfig) (messages : List (List (String × String)))
    (outcomes : Nat → ChatOutcome) :
    List ChatRequest × Except ChatError (List (String × String)) :=
  match cfg.chat_url with
  | none => ([], .error .missingChatUrl)
  | some u =>
    if u = "" then ([], .error .missingChatUrl)
    else
      match cfg.model with
      | none => ([], .error .missingModel)
      | some m =>
        if m = "" then ([], .error .missingModel)
        else
          let req : ChatRequest := ⟨u, m, messages⟩
          match outcomes 0 with
          | .readTimeout =>
            match outcomes 1 with
            | .readTimeout => ([req, req], .error .timeout)
            | .transportError => ([req, req], .error .transport)
            | .response s b =>
                ([req, req],
                  if isHttpError s then .error (.httpStatusError s) else .ok b)
          | .transportError => ([req], .error .transport)
          | .response s b =>
              ([req],
                if isHttpError s then .error (.httpStatusError s) else .ok b)

/-- C5 counterexample: a `304` response is non-2xx, yet
`raise_for_status()` does not raise for it, so `chat` returns the parsed
body instead of propagating an error — "any non-2xx response propagates
immediately" fails. -/
theorem claim_C5_counterexample :
    chat ⟨some "http://o", some "llm"⟩ [] (fun _ => .response 304 []) =
      ([⟨"http://o", "llm", []⟩], .ok []) ∧
    ¬ (200 ≤ 304 ∧ 304 < 300) ∧ isHttpError 304 = false :=
  ⟨rfl, by decide, rfl⟩

/-- C5 amended: `chat` raises `MissingConfiguration` (a `ValueError`)
before any network call when the endpoint URL or model identifier is
absent or empty; a read timeout on the first attempt triggers exactly one
retry with the identical request; a second read timeout propagates; a
non-timeout transport error propagates after a single call; and a
response status in 400–599 propagates after a single call without retry
(statuses outside 400–599, e.g. 3xx, are treated as success by
`raise_for_status`). -/
theorem claim_C5_amended (u m : String) (hu : u ≠ "") (hm : m ≠ "")
    (ms : List (List (String × String))) (o : Nat → ChatOutcome)
    (mo : Option String) (b : List (String × String)) (s : Nat) :
    (chat ⟨none, mo⟩ ms o = ([], .error .missingChatUrl)) ∧
    (chat ⟨some "", mo⟩ ms o = ([], .error .missingChatUrl)) ∧
    (chat ⟨some u, none⟩ ms o = ([], .error .missingModel)) ∧
    (chat ⟨some u, some ""⟩ ms o = ([], .error .missingModel)) ∧
    (o 0 = .readTimeout → o 1 = .response s b → isHttpError s = false →
      chat ⟨some u, some m⟩ ms o = ([⟨u, m, ms⟩, ⟨u, m, ms⟩], .ok b)) ∧
    (o 0 = .readTimeout → o 1 = .readTimeout →
      chat ⟨some u, some m⟩ ms o =
        ([⟨u, m, ms⟩, ⟨u, m, ms⟩], .error .timeout)) ∧
    (o 0 = .transportError →
      chat ⟨some u, some m⟩ ms o = ([⟨u, m, ms⟩], .error .transport)) ∧
    (o 0 = .response s b → isHttpError s = true →
      chat ⟨some u, some m⟩ ms o =
        ([⟨u, m, ms⟩], .error (.httpStatusError s))) ∧
    (o 0 = .response s b → isHttpError s = false →
      chat ⟨some u, some m⟩ ms o = ([⟨u, m, ms⟩], .ok b)) := by
  refine ⟨by simp [chat], by simp [chat], by simp [chat, hu],
    by simp [chat, hu], ?_, ?_, ?_, ?_, ?_⟩
  · intro h0 h1 hs
    simp [chat, hu, hm, h0, h1, hs]
  · intro h0 h1
    simp [chat, hu, hm, h0, h1]
  · intro h0
    simp [chat, hu, hm, h0]
  · intro h0 hs
    simp [chat, hu, hm, h0, hs]
  · intro h0 hs
    simp [chat, hu, hm, h0, hs]

/-- First attempt times out, second succeeds with a 200. -/
def c5Oracle : Nat → ChatOutcome :=
  fun n => if n = 0 then .readTimeout else .response 200 [("message", "ok")]

/-- Closed instance of C5 amended. -/
theorem claim_C5_amended_witness :
    ("http://o" ≠ "" ∧ "llm" ≠ "") ∧
    ((chat ⟨none, none⟩ [] c5Oracle = ([], .error .missingChatUrl)) ∧
     (chat ⟨some "", none⟩ [] c5Oracle = ([], .error .missingChatUrl)) ∧
     (chat ⟨some "http://o", none⟩ [] c5Oracle = ([], .error .missingModel)) ∧
     (chat ⟨some "http://o", some ""⟩ [] c5Oracle =
       ([], .error .missingModel)) ∧
     (c5Oracle 0 = .readTimeout →
       c5Oracle 1 = .response 200 [("message", "ok")] →
       isHttpError 200 = false →
       chat ⟨some "http://o", some "llm"⟩ [] c5Oracle =
         ([⟨"http://o", "llm", []⟩, ⟨"http://o", "llm", []⟩],
           .ok [("message", "ok")])) ∧
     (c5Oracle 0 = .readTimeout → c5Oracle 1 = .readTimeout →
       chat ⟨some "http://o", some "llm"⟩ [] c5Oracle =
         ([⟨"http://o", "llm", []⟩, ⟨"http://o", "llm", []⟩],
           .error .timeout)) ∧
     (c5Oracle 0 = .transportError →
       chat ⟨some "http://o", some "llm"⟩ [] c5Oracle =
         ([⟨"http://o", "llm", []⟩], .error .transport)) ∧
     (c5Oracle 0 = .response 200 [("message", "ok")] →
       isHttpError 200 = true →
       chat ⟨some "http://o", some "llm"⟩ [] c5Oracle =
         ([⟨"http://o", "llm", []⟩], .error (.httpStatusError 200))) ∧
     (c5Oracle 0 = .response 200 [("message", "ok")] →
       isHttpError 200 = false →
       chat ⟨some "http://o", some "llm"⟩ [] c5Oracle =
         ([⟨"http://o", "llm", []⟩], .ok [("message", "ok")]))) :=
  ⟨⟨by decide, by decide⟩,
    claim_C5_amended "http://o" "llm" (by decide) (by decide) [] c5Oracle
      none [("message", "ok")] 200⟩

/-! ## Discord webhook dispatch (src/discord.py)

`send_webhook` validates, builds `Root(content, embeds)` and posts its
payload; `Root.to_payload` drops `None` fields, so a payload's missing
content line is `content = none` here.  The network post itself always
succeeds in this model (no claim concerns webhook transport failures);
the returned payload list is the list of network calls made, in order. -/

/-- The notification card (`Embed` dataclass): the fields
`build_email_embed` populates; the remaining optional fields stay `None`
and are dropped from the serialized payload. -/
structure Embed where
  title : Option String := none
  description : Option String := none
  url : Option String := none
  color : Option Nat := none
  deriving DecidableEq

/-- The serialized body of one webhook post (after `_drop_none`:
`content = none` means the content key is absent). -/
structure WebhookPayload where
  content : Option String
  embeds : List Embed
  deriving DecidableEq

inductive DiscordError where
  | urlRequired
  | tooManyEmbeds
  | chunkSizeNotPositive
  deriving DecidableEq

def MAX_EMBEDS_PER_WEBHOOK : Nat := 10

/-- `build_email_embed(message_id, subject, summary)`. -/
def build_email_embed (message_id subject summary : String) : Embed :=
  { title := some subject,
    url := some ("https://mail.google.com/mail/u/0/#inbox/" ++ message_id),
    description := some summary,
    color := some 15258703 }

/-- `send_webhook`: reject a falsy URL, reject more than 10 embeds, else
post `Root(content, embeds).to_payload()`. -/
def send_webhook (embeds : List Embed) (url : String)
    (content : Option String) : Except DiscordError WebhookPayload :=
  if url = "" then .error .urlRequired
  else if embeds.length > MAX_EMBEDS_PER_WEBHOOK then .error .tooManyEmbeds
  else .ok ⟨content, embeds⟩

/-- `range(0, len(embeds), chunk_size)` slicing, with fuel (each step
consumes at least one element, so `length` fuel suffices for any
`n ≥ 1`). -/
def sliceChunksAux {α : Type} (n : Nat) : Nat → List α → List (List α)
  | 0, _ => []
  | _ + 1, [] => []
  | fuel + 1, x :: xs =>
      (x :: xs.take (n - 1)) :: sliceChunksAux n fuel (xs.drop (n - 1))

/-- The consecutive slices `embeds[start:start+n]` for
`start = 0, n, 2n, ...`. -/
def sliceChunks {α : Type} (n : Nat) (l : List α) : List (List α) :=
  sliceChunksAux n l.length l

/-- The loop body of `send_webhook_chunked`: send each chunk in order,
the first with the caller's content and every later one with `None`;
an error propagates immediately. -/
def dispatchChunks (url : String) (content : Option String) :
    List (List Embed) → Bool → Except DiscordError (List WebhookPayload)
  | [], _ => .ok []
  | c :: rest, isFirst =>
    match send_webhook c url (if isFirst then content else none) with
    | .error e => .error e
    | .ok p =>
      match dispatchChunks url content rest false with
      | .error e => .error e
      | .ok ps => .ok (p :: ps)

/-- `send_webhook_chunked`: reject a non-positive chunk size, then send
the consecutive slices. -/
def send_webhook_chunked (embeds : List Embed) (url : String)
    (content : Option String) (chunk_size : Int) :
    Except DiscordError (List WebhookPayload) :=
  if chunk_size ≤ 0 then .error .chunkSizeNotPositive
  else dispatchChunks url content (sliceChunks chunk_size.toNat embeds) true

/-- The payloads `dispatchChunks` produces when every send succeeds. -/
def chunkPayloads (content : Option String) :
    List (List Embed) → Bool → List WebhookPayload
  | [], _ => []
  | c :: rest, isFirst =>
      ⟨if isFirst then content else none, c⟩ :: chunkPayloads content rest false

theorem sliceChunksAux_join {α : Type} (n : Nat) :
    ∀ (fuel : Nat) (l : List α), l.length ≤ fuel → 1 ≤ n →
      (sliceChunksAux n fuel l).join = l := by
  intro fuel
  induction fuel with
  | zero =>
    intro l hl _
    have : l = [] := List.length_eq_zero.mp (Nat.le_zero.mp hl)
    subst this; rfl
  | succ fuel ih =>
    intro l hl hn
    cases l with
    | nil => rfl
    | cons x xs =>
      have hrec : (xs.drop (n - 1)).length ≤ fuel := by
        simp only [List.length_drop]
        simp only [List.length_cons] at hl
        omega
      simp [sliceChunksAux, ih _ hrec hn]

theorem sliceChunksAux_length {α : Type} (n : Nat) :
    ∀ (fuel : Nat) (l : List α), l.length ≤ fuel → 1 ≤ n →
      (sliceChunksAux n fuel l).length = (l.length + n - 1) / n := by
  intro fuel
  induction fuel with
  | zero =>
    intro l hl hn
    have : l = [] := List.length_eq_zero.mp (Nat.le_zero.mp hl)
    subst this
    simp [sliceChunksAux, Nat.div_eq_of_lt (by omega : n - 1 < n)]
  | succ fuel ih =>
    intro l hl hn
    cases l with
    | nil => simp [sliceChunksAux, Nat.div_eq_of_lt (by omega : n - 1 < n)]
    | cons x xs =>
      have hrec : (xs.drop (n - 1)).length ≤ fuel := by
        simp only [List.length_drop]
        simp only [List.length_cons] at hl
        omega
      have hrw := ih _ hrec hn
      simp only [sliceChunksAux, List.length_cons, hrw, List.length_drop]
      have hdiv : (xs.length + 1 + n - 1) / n = xs.length / n + 1 := by
        have : xs.length + 1 + n - 1 = xs.length + n := by omega
        rw [this, Nat.add_div_right _ (by omega : 0 < n)]
      rw [hdiv]
      by_cases hc : n - 1 ≤ xs.length
      · have : xs.length - (n - 1) + n - 1 = xs.length := by omega
        rw [this]
      · have h0 : xs.length - (n - 1) = 0 := by omega
        have h1 : xs.length / n = 0 := Nat.div_eq_of_lt (by omega)
        rw [h0, h1]
        simp [Nat.div_eq_of_lt (by omega : n - 1 < n)]

theorem sliceChunksAux_sizes {α : Type} (n : Nat) :
    ∀ (fuel : Nat) (l : List α), l.length ≤ fuel → 1 ≤ n →
      ∀ c ∈ sliceChunksAux n fuel l, c.length ≤ n := by
  intro fuel
  induction fuel with
  | zero =>
    intro l hl _
    have : l = [] := List.length_eq_zero.mp (Nat.le_zero.mp hl)
    subst this
    intro c hc
    simp [sliceChunksAux] at hc
  | succ fuel ih =>
    intro l hl hn
    cases l with
    | nil => intro c hc; simp [sliceChunksAux] at hc
    | cons x xs =>
      intro c hc
      have hrec : (xs.drop (n - 1)).length ≤ fuel := by
        simp only [List.length_drop]
        simp only [List.length_cons] at hl
        omega
      simp only [sliceChunksAux, List.mem_cons] at hc
      cases hc with
      | inl h =>
        subst h
        simp only [List.length_cons, List.length_take]
        omega
      | inr h => exact ih _ hrec hn c h

theorem dispatchChunks_ok (url : String) (content : Option String)
    (hurl : url ≠ "") :
    ∀ (chunks : List (List Embed)) (b : Bool),
      (∀ c ∈ chunks, c.length ≤ MAX_EMBEDS_PER_WEBHOOK) →
      dispatchChunks url content chunks b =
        .ok (chunkPayloads content chunks b) := by
  intro chunks
  induction chunks with
  | nil => intro b _; rfl
  | cons c rest ih =>
    intro b hall
    have hc : ¬ c.length > MAX_EMBEDS_PER_WEBHOOK :=
      not_lt.mpr (hall c (List.mem_cons_self c rest))
    have hrest := ih false (fun d hd => hall d (List.mem_cons_of_mem c hd))
    simp [dispatchChunks, send_webhook, hurl, hc, hrest, chunkPayloads]

theorem chunkPayloads_map_embeds (content : Option String) :
    ∀ (chunks : List (List Embed)) (b : Bool),
      (chunkPayloads content chunks b).map WebhookPayload.embeds = chunks := by
  intro chunks
  induction chunks with
  | nil => intro b; rfl
  | cons c rest ih => intro b; simp [chunkPayloads, ih false]

theorem chunkPayloads_length (content : Option String) :
    ∀ (chunks : List (List Embed)) (b : Bool),
      (chunkPayloads content chunks b).length = chunks.length := by
  intro chunks
  induction chunks with
  | nil => intro b; rfl
  | cons c rest ih => intro b; simp [chunkPayloads, ih false]

theorem chunkPayloads_content (content : Option String) :
    ∀ (chunks : List (List Embed)) (b : Bool) (i : Nat)
      (hi : i < (chunkPayloads content chunks b).length),
      ((chunkPayloads content chunks b).get ⟨i, hi⟩).content =
        if b ∧ i = 0 then content else none := by
  intro chunks
  induction chunks with
  | nil => intro b i hi; simp [chunkPayloads] at hi
  | cons c rest ih =>
    intro b i hi
    cases i with
    | zero => cases b <;> simp [chunkPayloads]
    | succ j =>
      have hj : j < (chunkPayloads content rest false).length := by
        simpa [chunkPayloads] using hi
      have := ih false j hj
      simp only [chunkPayloads, List.get_cons_succ, this]
      simp

/-- C4: with `chunkSize = 10` and a non-empty URL, the chunked dispatch
makes exactly `ceil(k/10)` calls, whose embed lists are the consecutive
order-preserving slices of the input (each of at most 10 cards and
concatenating back to the input), and only the first call's payload
carries the content line — every later payload has none. -/
theorem claim_C4 (embeds : List Embed) (url : String)
    (content : Option String) (h : url ≠ "") :
    ∃ ps, send_webhook_chunked embeds url content 10 = .ok ps ∧
      ps.length = (embeds.length + 10 - 1) / 10 ∧
      ps.map WebhookPayload.embeds = sliceChunks 10 embeds ∧
      (ps.map WebhookPayload.embeds).join = embeds ∧
      (∀ p ∈ ps, p.embeds.length ≤ 10) ∧
      (∀ i, ∀ hi : i < ps.length,
        (ps.get ⟨i, hi⟩).content = if i = 0 then content else none) := by
  have hsizes : ∀ c ∈ sliceChunks 10 embeds, c.length ≤ 10 :=
    sliceChunksAux_sizes 10 embeds.length embeds (le_refl _) (by omega)
  have hstep : send_webhook_chunked embeds url content 10 =
      dispatchChunks url content (sliceChunks 10 embeds) true := by
    norm_num [send_webhook_chunked]
    rfl
  refine ⟨chunkPayloads content (sliceChunks 10 embeds) true, ?_, ?_, ?_, ?_, ?_, ?_⟩
  · rw [hstep]
    exact dispatchChunks_ok url content h (sliceChunks 10 embeds) true hsizes
  · rw [chunkPayloads_length content _ true]
    exact sliceChunksAux_length 10 embeds.length embeds (le_refl _) (by omega)
  · exact chunkPayloads_map_embeds content _ true
  · rw [chunkPayloads_map_embeds content _ true]
    exact sliceChunksAux_join 10 embeds.length embeds (le_refl _) (by omega)
  · intro p hp
    have : p.embeds ∈ sliceChunks 10 embeds := by
      rw [← chunkPayloads_map_embeds content (sliceChunks 10 embeds) true]
      exact List.mem_map_of_mem _ hp
    exact hsizes _ this
  · intro i hi
    rw [chunkPayloads_content content _ true i hi]
    simp

/-- 23 identical cards for the C4 witness (the §8 scenario: chunks of
10, 10 and 3). -/
def c4Embeds : List Embed := List.replicate 23 {}

/-- Closed instance of C4: 23 cards, chunk size 10. -/
theorem claim_C4_witness :
    "https://w" ≠ "" ∧
    (∃ ps, send_webhook_chunked c4Embeds "https://w" (some "hdr") 10 = .ok ps ∧
      ps.length = (c4Embeds.length + 10 - 1) / 10 ∧
      ps.map WebhookPayload.embeds = sliceChunks 10 c4Embeds ∧
      (ps.map WebhookPayload.embeds).join = c4Embeds ∧
      (∀ p ∈ ps, p.embeds.length ≤ 10) ∧
      (∀ i, ∀ hi : i < ps.length,
        (ps.get ⟨i, hi⟩).content = if i = 0 then some "hdr" else none)) :=
  ⟨by decide, claim_C4 c4Embeds "https://w" (some "hdr") (by decide)⟩

/-- C10: dispatching an empty card list with any positive chunk size
returns the empty result without any network call and without validating
the target URL (even the empty URL raises nothing), because the URL check
lives inside the per-chunk `send_webhook` and no chunk is formed — as the
second conjunct shows, a direct zero-card `send_webhook` with an empty
URL does raise. -/
theorem claim_C10 (url : String) (content : Option String) (cs : Int)
    (h : 0 < cs) :
    send_webhook_chunked [] url content cs = .ok [] ∧
    (∀ c, send_webhook [] "" c = .error .urlRequired) := by
  constructor
  · have hns : ¬ cs ≤ 0 := not_le.mpr h
    simp [send_webhook_chunked, hns, sliceChunks, sliceChunksAux,
      dispatchChunks]
  · intro c
    simp [send_webhook]

/-- Closed instance of C10: empty cards, empty URL, chunk size 10. -/
theorem claim_C10_witness :
    (0 : Int) < 10 ∧
    (send_webhook_chunked [] "" (some "hdr") 10 = .ok [] ∧
     (∀ c, send_webhook [] "" c = .error .urlRequired)) :=
  ⟨by decide, claim_C10 "" (some "hdr") 10 (by decide)⟩

/-! ## JSON decoding (`json.loads`) and tool-argument parsing

`json.loads` is embedded as a concrete recursive-descent parser of the
JSON grammar (RFC 8259): `none` models a raised `JSONDecodeError`.
Numbers are parsed exactly into rationals; `NaN`/`Infinity` extensions
and surrogate-pair `\u` escapes are not modelled, and no claim uses
them.  Python values flowing through the triage step (tool arguments,
summary values) are modelled by the same `JsonVal` type; objects parse
to insertion-ordered association lists with last-duplicate-wins, as
`dict` construction does. -/

/-- A JSON value / generic Python value. -/
inductive JsonVal where
  | null
  | bool (b : Bool)
  | num (q : Rat)
  | str (s : String)
  | arr (xs : List JsonVal)
  | obj (kvs : List (String × JsonVal))

/-- JSON whitespace. -/
def jsonWs (c : Char) : Bool := c = ' ' || c = '\t' || c = '\n' || c = '\r'

/-- Skip JSON whitespace. -/
def skipWs : List Char → List Char
  | [] => []
  | c :: rest => if jsonWs c then skipWs rest else c :: rest

/-- Hex digit value. -/
def parseHexDigit (c : Char) : Option Nat :=
  if '0' ≤ c && c ≤ '9' then some (c.toNat - 48)
  else if 'a' ≤ c && c ≤ 'f' then some (c.toNat - 97 + 10)
  else if 'A' ≤ c && c ≤ 'F' then some (c.toNat - 65 + 10)
  else none

/-- Single-character JSON escapes. -/
def escChar : Char → Option Char
  | '"' => some '"'
  | '\\' => some '\\'
  | '/' => some '/'
  | 'b' => some '\x08'
  | 'f' => some '\x0c'
  | 'n' => some '\n'
  | 'r' => some '\r'
  | 't' => some '\t'
  | _ => none

/-- Parse the body of a JSON string after the opening quote, returning
its characters and the input after the closing quote. -/
def parseStringBody : List Char → Option (List Char × List Char)
  | [] => none
  | '"' :: rest => some ([], rest)
  | '\\' :: 'u' :: h1 :: h2 :: h3 :: h4 :: rest =>
    (match parseHexDigit h1, parseHexDigit h2,
           parseHexDigit h3, parseHexDigit h4 with
     | some a, some b, some c, some d =>
         (parseStringBody rest).map
           (fun p => (Char.ofNat (a * 4096 + b * 256 + c * 16 + d) :: p.1, p.2))
     | _, _, _, _ => none)
  | '\\' :: e :: rest =>
    (match escChar e with
     | some c => (parseStringBody rest).map (fun p => (c :: p.1, p.2))
     | none => none)
  | c :: rest =>
    if c.toNat < 32 then none
    else (parseStringBody rest).map (fun p => (c :: p.1, p.2))

/-- Decimal digits to a natural number. -/
def digitsToNat (ds : List Char) : Nat :=
  ds.foldl (fun a c => a * 10 + (c.toNat - 48)) 0

/-- Parse a JSON number (sign, integer part without redundant leading
zero, optional fraction, optional exponent) into an exact rational. -/
def parseNumber (l : List Char) : Option (Rat × List Char) :=
  let (neg, l1) :=
    match l with
    | '-' :: r => (true, r)
    | _ => (false, l)
  match l1 with
  | [] => none
  | c :: _ =>
    if ¬ c.isDigit then none
    else
      let ds := l1.takeWhile Char.isDigit
      let r2 := l1.dropWhile Char.isDigit
      if 1 < ds.length ∧ c = '0' then none
      else
        let withFrac : Option (Rat × List Char) :=
          match r2 with
          | '.' :: r3 =>
            let fs := r3.takeWhile Char.isDigit
            if fs = [] then none
            else some (((digitsToNat ds : Rat) +
              (digitsToNat fs : Rat) / (10 : Rat) ^ fs.length),
              r3.dropWhile Char.isDigit)
          | _ => some ((digitsToNat ds : Rat), r2)
        match withFrac with
        | none => none
        | some (base, r4) =>
          let withExp : Option (Rat × List Char) :=
            match r4 with
            | 'e' :: r5 | 'E' :: r5 =>
              let (eneg, r6) :=
                match r5 with
                | '-' :: r => (true, r)
                | '+' :: r => (false, r)
                | _ => (false, r5)
              let es := r6.takeWhile Char.isDigit
              if es = [] then none
              else
                let e : Int := digitsToNat es
                some (base * (10 : Rat) ^ (if eneg then -e else e),
                  r6.dropWhile Char.isDigit)
            | _ => some (base, r4)
          match withExp with
          | none => none
          | some (v, r7) => some ((if neg then -v else v), r7)

mutual

/-- Parse one JSON value (fuel bounds the recursion depth; `json_loads`
supplies more than enough). -/
def parseJsonVal : Nat → List Char → Option (JsonVal × List Char)
  | 0, _ => none
  | fuel + 1, l =>
    match skipWs l with
    | 'n' :: 'u' :: 'l' :: 'l' :: rest => some (.null, rest)
    | 't' :: 'r' :: 'u' :: 'e' :: rest => some (.bool true, rest)
    | 'f' :: 'a' :: 'l' :: 's' :: 'e' :: rest => some (.bool false, rest)
    | '"' :: rest =>
        (parseStringBody rest).map (fun p => (.str (String.mk p.1), p.2))
    | '\x7b' :: rest =>
        (parseMembers fuel rest).map
          (fun p => (.obj (applyUpserts [] p.1), p.2))
    | '[' :: rest =>
        (parseElements fuel rest).map (fun p => (.arr p.1, p.2))
    | c :: rest =>
        if c = '-' || c.isDigit then
          (parseNumber (c :: rest)).map (fun p => (.num p.1, p.2))
        else none
    | [] => none

/-- Parse one `"key": value` member. -/
def parsePair : Nat → List Char → Option ((String × JsonVal) × List Char)
  | 0, _ => none
  | fuel + 1, l =>
    match skipWs l with
    | '"' :: rest =>
      (match parseStringBody rest with
       | some (cs, r1) =>
         (match skipWs r1 with
          | ':' :: r2 =>
              (parseJsonVal fuel r2).map (fun p => ((String.mk cs, p.1), p.2))
          | _ => none)
       | none => none)
    | _ => none

/-- Members of an object after the opening brace. -/
def parseMembers : Nat → List Char → Option (List (String × JsonVal) × List Char)
  | 0, _ => none
  | fuel + 1, l =>
    match skipWs l with
    | '\x7d' :: rest => some ([], rest)
    | _ =>
      match parsePair fuel l with
      | some (kv, r1) =>
          (parseMoreMembers fuel r1).map (fun p => (kv :: p.1, p.2))
      | none => none

/-- `, member`* then the closing brace. -/
def parseMoreMembers : Nat → List Char → Option (List (String × JsonVal) × List Char)
  | 0, _ => none
  | fuel + 1, l =>
    match skipWs l with
    | ',' :: rest =>
      (match parsePair fuel rest with
       | some (kv, r1) =>
           (parseMoreMembers fuel r1).map (fun p => (kv :: p.1, p.2))
       | none => none)
    | '\x7d' :: rest => some ([], rest)
    | _ => none

/-- Elements of an array after the opening bracket. -/
def parseElements : Nat → List Char → Option (List JsonVal × List Char)
  | 0, _ => none
  | fuel + 1, l =>
    match skipWs l with
    | ']' :: rest => some ([], rest)
    | _ =>
      match parseJsonVal fuel l with
      | some (v, r1) =>
          (parseMoreElements fuel r1).map (fun p => (v :: p.1, p.2))
      | none => none

/-- `, element`* then the closing bracket. -/
def parseMoreElements : Nat → List Char → Option (List JsonVal × List Char)
  | 0, _ => none
  | fuel + 1, l =>
    match skipWs l with
    | ',' :: rest =>
      (match parseJsonVal fuel rest with
       | some (v, r1) =>
           (parseMoreElements fuel r1).map (fun p => (v :: p.1, p.2))
       | none => none)
    | ']' :: rest => some ([], rest)
    | _ => none

end

/-- `json.loads`: parse one value and require only whitespace after it;
`none` models the raised `JSONDecodeError`. -/
def json_loads (s : String) : Option JsonVal :=
  match parseJsonVal (3 * s.length + 8) s.toList with
  | some (v, rest) => if skipWs rest = [] then some v else none
  | none => none

/-- Python `str()` of a decoded value, as applied to the `summary`
argument.  The claims only exercise the string case; the renderings of
composite and numeric values approximate Python's `repr`-style output and
no theorem depends on them. -/
def pyStr : JsonVal → String
  | .str s => s
  | .null => "None"
  | .bool true => "True"
  | .bool false => "False"
  | .num q =>
      toString q.num ++ (if q.den = 1 then "" else "/" ++ toString q.den)
  | .arr _ => "<list>"
  | .obj _ => "<dict>"

/-! ## Triage step (service.py / agent.py, `EmailAgent`)

`parse_tool_args` and the `check_email` tool-call loop are byte-for-byte
identical in src/src/email_agent/service.py and src/agent.py; one
embedding covers both.  A model-proposed tool invocation is its
`function.name` (absent or a string) and its raw `arguments` value —
a structured object, a string to be parsed, or anything else. -/

/-- `EmailAgent.parse_tool_args`: a dict is returned unchanged; a string
is JSON-decoded, keeping only object results; everything else (including
a parse failure) yields the empty mapping. -/
def parse_tool_args : JsonVal → List (String × JsonVal)
  | .obj m => m
  | .str s =>
    (match json_loads s with
     | some (.obj m) => m
     | _ => [])
  | _ => []

/-- One entry of `assistant_msg["tool_calls"]`: the function name and the
raw arguments. -/
structure ToolCall where
  fname : Option String
  arguments : JsonVal

/-- The synthetic tool-result message appended per accepted invocation. -/
structure ToolMsg where
  role : String
  tool_name : String
  content : String
  deriving DecidableEq

/-- `str(args.get("summary", "")).strip()`. -/
def decodedSummary (tc : ToolCall) : String :=
  pyStrip (pyStr ((dictGet "summary" (parse_tool_args tc.arguments)).getD (.str "")))

/-- The tool-call loop of `check_email`: for each invocation named
`notify`, decode the arguments; skip silently when the trimmed summary is
empty, else append one card and one tool-result message. -/
def processToolCalls (message_id subject : String) :
    List ToolCall → List Embed × List ToolMsg
  | [] => ([], [])
  | tc :: rest =>
    let r := processToolCalls message_id subject rest
    if tc.fname = some "notify" then
      if decodedSummary tc = "" then r
      else (build_email_embed message_id subject (decodedSummary tc) :: r.1,
            ⟨"tool", "notify", "Notification queued."⟩ :: r.2)
    else r

/-- The card a single invocation contributes (`none` when skipped). -/
def cardFor (message_id subject : String) (tc : ToolCall) : Option Embed :=
  if tc.fname = some "notify" ∧ decodedSummary tc ≠ "" then
    some (build_email_embed message_id subject (decodedSummary tc))
  else none

/-- The tool-result message a single invocation contributes. -/
def msgFor (tc : ToolCall) : Option ToolMsg :=
  if tc.fname = some "notify" ∧ decodedSummary tc ≠ "" then
    some ⟨"tool", "notify", "Notification queued."⟩
  else none

/-- C6: tool-argument decoding is total — a dict input is returned
unchanged, and a string input yields the parsed object when the string is
JSON for an object and the empty mapping on a parse failure or any
non-object JSON value (no exception escapes: failure is a value here). -/
theorem claim_C6 :
    (∀ m, parse_tool_args (.obj m) = m) ∧
    (∀ s, parse_tool_args (.str s) =
      (match json_loads s with
       | some (.obj m) => m
       | _ => [])) ∧
    parse_tool_args (.str "not json") = [] ∧
    parse_tool_args (.str "[true, false]") = [] ∧
    parse_tool_args (.str "\x7b\"a\": \"b\"\x7d") = [("a", JsonVal.str "b")] ∧
    parse_tool_args .null = [] :=
  ⟨fun _ => rfl, fun _ => rfl, rfl, rfl, rfl, rfl⟩

/-- C3: the tool-call loop contributes, per invocation and in emitted
order, exactly one card and one tool-result message when the invocation
is named `notify` with a non-blank trimmed summary, and nothing at all
otherwise — in particular the literal argument string
`{"summary": "  "}` (whitespace-only summary) yields zero cards and zero
appended tool messages, while non-blank summaries each yield one of
each. -/
theorem claim_C3 (message_id subject : String) (tcs : List ToolCall) :
    processToolCalls message_id subject tcs =
      (tcs.filterMap (cardFor message_id subject), tcs.filterMap msgFor) ∧
    (tcs.filterMap (cardFor message_id subject)).length =
      (tcs.filterMap msgFor).length ∧
    processToolCalls "m1" "Subj"
      [⟨some "notify", .str "\x7b\"summary\": \"  \"\x7d"⟩] = ([], []) ∧
    processToolCalls "m1" "Subj"
      [⟨some "notify", .str "\x7b\"summary\": \"Ping\"\x7d"⟩,
       ⟨some "notify", .str "\x7b\"summary\": \"  \"\x7d"⟩,
       ⟨some "notify", .str "\x7b\"summary\": \"Pong\"\x7d"⟩] =
      ([build_email_embed "m1" "Subj" "Ping",
        build_email_embed "m1" "Subj" "Pong"],
       [⟨"tool", "notify", "Notification queued."⟩,
        ⟨"tool", "notify", "Notification queued."⟩]) := by
  refine ⟨?_, ?_, rfl, rfl⟩
  · induction tcs with
    | nil => rfl
    | cons tc rest ih =>
      by_cases h1 : tc.fname = some "notify"
      · by_cases h2 : decodedSummary tc = ""
        · simp [processToolCalls, cardFor, msgFor, h1, h2, ih]
        · simp [processToolCalls, cardFor, msgFor, h1, h2, ih]
      · simp [processToolCalls, cardFor, msgFor, h1, ih]
  · induction tcs with
    | nil => rfl
    | cons tc rest ih =>
      by_cases h1 : tc.fname = some "notify" <;>
        by_cases h2 : decodedSummary tc = "" <;>
          simp [cardFor, msgFor, h1, h2, ih]
